import Mathlib

/-!
Shallow embedding of the landscape viewer (`window.c`): the height-field
accessor `heightMapAltitude`, the camera/idle tick, the keyboard handlers,
the per-frame draw command sequence and the shutdown routine, together with
theorems settling the specification claims about them.

Machine floating-point values are modelled by exact rationals; the C
library functions `sin` and `cos` are external collaborators and are
modelled as parameters.
-/

namespace Landscape

/-- C cast of a floating value to `int`: truncation toward zero. -/
def ctrunc (q : ℚ) : ℤ := if 0 ≤ q then ⌊q⌋ else ⌈q⌉

/-- Source global `_landscape_w` (width of the generated height map). -/
def landscape_w : ℤ := 513

/-- Source global `_landscape_h` (height of the generated height map). -/
def landscape_h : ℤ := 513

/-- Source global `_landscape_scale_xz` (horizontal world scale). -/
def landscape_scale_xz : ℚ := 100

/-- Source global `_landscape_scale_y` (vertical world scale). -/
def landscape_scale_y : ℚ := 10

/-- Grid-space x coordinate computed by `heightMapAltitude`:
`(_landscape_w >> 1) + (x / _landscape_scale_xz) * (_landscape_w / 2.0)`.
The shift `>> 1` on the positive int 513 is integer halving (256), while
`_landscape_w / 2.0` is the exact real half (256.5). -/
def gridX (x : ℚ) : ℚ :=
  ((landscape_w / 2 : ℤ) : ℚ) + (x / landscape_scale_xz) * ((landscape_w : ℚ) / 2)

/-- Grid-space z coordinate computed by `heightMapAltitude`:
`(_landscape_h >> 1) - (z / _landscape_scale_xz) * (_landscape_h / 2.0)`. -/
def gridZ (z : ℚ) : ℚ :=
  ((landscape_h / 2 : ℤ) : ℚ) - (z / landscape_scale_xz) * ((landscape_h : ℚ) / 2)

/-- Embedding of `heightMapAltitude` (window.c lines 295-301), parametrised
by the height map contents `hm` (the buffer produced at start-up by the
external generator, indexed as `_heightMap[ix + iz * _landscape_w]`).
The range check is on the real-valued grid coordinates, before the
truncating int casts, exactly as in the source. -/
def heightMapAltitude (hm : ℤ → ℚ) (x z : ℚ) : ℚ :=
  if 0 ≤ gridX x ∧ gridX x < (landscape_w : ℚ) ∧
     0 ≤ gridZ z ∧ gridZ z < (landscape_h : ℚ) then
    (2 * hm (ctrunc (gridX x) + ctrunc (gridZ z) * landscape_w) - 1) * landscape_scale_y
  else 0

/-- Written from the claim's words, for comparison with the source function:
grid coordinates `gridX = W/2 + (worldX/horizScale)*(W/2)` and
`gridZ = H/2 - (worldZ/horizScale)*(H/2)` (both occurrences of `W/2`, `H/2`
the exact halves), and whenever the truncated integer grid coordinates fall
within `[0, W) × [0, H)` the result is `(2 * sample - 1) * vertScale`. -/
def altitudeAtClaimed (hm : ℤ → ℚ) (x z : ℚ) : ℚ :=
  let gx : ℚ := (landscape_w : ℚ) / 2 + (x / landscape_scale_xz) * ((landscape_w : ℚ) / 2)
  let gz : ℚ := (landscape_h : ℚ) / 2 - (z / landscape_scale_xz) * ((landscape_h : ℚ) / 2)
  if 0 ≤ ctrunc gx ∧ ctrunc gx < landscape_w ∧
     0 ≤ ctrunc gz ∧ ctrunc gz < landscape_h then
    (2 * hm (ctrunc gx + ctrunc gz * landscape_w) - 1) * landscape_scale_y
  else 0

/-- A concrete height map distinguishing the claimed mapping from the
implemented one: sample 1 at flat index 131585 = 257 + 256 * 513, sample 0
everywhere else. -/
def hmCE : ℤ → ℚ := fun i => if i = 131585 then 1 else 0

/-- Formulation of the claim's amended mapping: the additive centering
offset is the integer half of the grid dimension (`513 >> 1 = 256`) while
the multiplier is the exact half (`513 / 2 = 256.5`); whenever the
real-valued grid coordinates fall within `[0, 513) × [0, 513)` the result
is `(2 * sample(⌊gridX⌋, ⌊gridZ⌋) - 1) * vertScale`, otherwise 0. -/
def altitudeAtAmended (hm : ℤ → ℚ) (x z : ℚ) : ℚ :=
  let gx : ℚ := 256 + (x / 100) * (513 / 2)
  let gz : ℚ := 256 - (z / 100) * (513 / 2)
  if 0 ≤ gx ∧ gx < 513 ∧ 0 ≤ gz ∧ gz < 513 then
    (2 * hm (⌊gx⌋ + ⌊gz⌋ * 513) - 1) * 10
  else 0

/-- Claim C1, counterexample: at world coordinates (100/513, 0) with the
height map `hmCE`, the code's `heightMapAltitude` returns -10 while the
claimed mapping (offset `W/2 = 256.5` instead of the code's `W >> 1 = 256`)
returns 10, so the claim as stated is false. -/
theorem heightMapAltitude_claim_counterexample :
    heightMapAltitude hmCE (100 / 513) 0 ≠ altitudeAtClaimed hmCE (100 / 513) 0 := by
  norm_num [heightMapAltitude, altitudeAtClaimed, gridX, gridZ, ctrunc,
    landscape_w, landscape_h, landscape_scale_xz, landscape_scale_y, hmCE]

/-- Claim C1, amended: `heightMapAltitude` maps world coordinates through
`gridX = (W >> 1) + (worldX/horizScale)*(W/2)` and
`gridZ = (H >> 1) - (worldZ/horizScale)*(H/2)` (integer-half offset, exact
half multiplier), and whenever those real-valued grid coordinates fall
within `[0, W) × [0, H)` it returns `(2 * sample(⌊gridX⌋, ⌊gridZ⌋) - 1) *
vertScale`, else 0. -/
theorem heightMapAltitude_amended (hm : ℤ → ℚ) (x z : ℚ) :
    heightMapAltitude hm x z = altitudeAtAmended hm x z := by
  have h256 : ((513 / 2 : ℤ) : ℚ) = 256 := by norm_num
  simp only [heightMapAltitude, altitudeAtAmended, gridX, gridZ,
    landscape_w, landscape_h, landscape_scale_xz, landscape_scale_y, h256]
  push_cast
  split_ifs with h
  · obtain ⟨h1, _h2, h3, _h4⟩ := h
    simp only [ctrunc]
    rw [if_pos h1, if_pos h3]
  · rfl

/-- Claim C2: whenever the mapped grid coordinates fall outside
`[0, W) × [0, H)`, `heightMapAltitude` returns exactly 0 (and, being a
total function, raises no error): out-of-range lookup is a defined
default. -/
theorem heightMapAltitude_out_of_range (hm : ℤ → ℚ) (x z : ℚ)
    (h : ¬ (0 ≤ gridX x ∧ gridX x < (landscape_w : ℚ) ∧
            0 ≤ gridZ z ∧ gridZ z < (landscape_h : ℚ))) :
    heightMapAltitude hm x z = 0 := by
  simp only [heightMapAltitude, if_neg h]

/-- Claim C2 witness: world x = 1000 maps to grid x = 2821, outside the
grid, and the altitude returned there is 0 even though every stored sample
is 1. -/
theorem heightMapAltitude_out_of_range_witness :
    ¬ (0 ≤ gridX 1000 ∧ gridX 1000 < (landscape_w : ℚ) ∧
       0 ≤ gridZ 0 ∧ gridZ 0 < (landscape_h : ℚ)) ∧
    heightMapAltitude (fun _ => 1) 1000 0 = 0 :=
  ⟨by norm_num [gridX, gridZ, landscape_w, landscape_h, landscape_scale_xz],
   heightMapAltitude_out_of_range (fun _ => 1) 1000 0
     (by norm_num [gridX, gridZ, landscape_w, landscape_h, landscape_scale_xz])⟩

/-- The virtual keyboard `_keys`, indexed in the source by the enum
`KLEFT, KRIGHT, KUP, KDOWN`. -/
structure Keys where
  left : Bool
  right : Bool
  up : Bool
  down : Bool
deriving DecidableEq

/-- The camera `cam_t`: horizontal position and yaw. -/
structure Cam where
  x : ℚ
  z : ℚ
  theta : ℚ
deriving DecidableEq

/-- The OpenGL polygon rasterization modes accepted by `glPolygonMode`. -/
inductive PolyMode where
  | fill
  | line
  | point
deriving DecidableEq

/-- The mutable program state touched by `idle`, `keydown` and `keyup`:
the virtual keyboard, the polygon mode, the camera and the cycle phase
accumulator `_cycle`. -/
structure GState where
  keys : Keys
  polyMode : PolyMode
  cam : Cam
  cycle : ℚ
deriving DecidableEq

/-- The C `double` constant `M_PI` (the value of `dtheta` in `idle`),
written as the exact rational value of that floating-point constant. -/
def M_PI : ℚ := 884279719003555 / 281474976710656

/-- The linear speed `pas` in `idle`. -/
def pas : ℚ := 5

/-- Camera update of one `idle` tick (window.c lines 167-180): the four
key-flag branches in source order; the translation branches read the yaw
already updated by the rotation branches of the same tick. `sinf` and
`cosf` are the external C library `sin` and `cos`. -/
def camTick (sinf cosf : ℚ → ℚ) (k : Keys) (dt : ℚ) (c : Cam) : Cam :=
  let c1 := if k.left then { c with theta := c.theta + dt * M_PI } else c
  let c2 := if k.right then { c1 with theta := c1.theta - dt * M_PI } else c1
  let c3 := if k.up then
      { c2 with x := c2.x + -dt * pas * sinf c2.theta,
                z := c2.z + -dt * pas * cosf c2.theta }
    else c2
  if k.down then
    { c3 with x := c3.x + dt * pas * sinf c3.theta,
              z := c3.z + dt * pas * cosf c3.theta }
  else c3

/-- Embedding of `idle` (window.c lines 163-181): advance `_cycle` by the
elapsed time and update the camera from the key flags. -/
def idle (sinf cosf : ℚ → ℚ) (dt : ℚ) (s : GState) : GState :=
  { s with cam := camTick sinf cosf s.keys dt s.cam, cycle := s.cycle + dt }

/-- A sequence of `idle` ticks with the given elapsed times. -/
def applyTicks (sinf cosf : ℚ → ℚ) (dts : List ℚ) (s : GState) : GState :=
  dts.foldl (fun st dt => idle sinf cosf dt st) s

/-- SDL2 keycode `SDLK_LEFT`. -/
def SDLK_LEFT : ℤ := 1073741904

/-- SDL2 keycode `SDLK_RIGHT`. -/
def SDLK_RIGHT : ℤ := 1073741903

/-- SDL2 keycode `SDLK_UP`. -/
def SDLK_UP : ℤ := 1073741906

/-- SDL2 keycode `SDLK_DOWN`. -/
def SDLK_DOWN : ℤ := 1073741905

/-- SDL2 keycode `SDLK_ESCAPE`. -/
def SDLK_ESCAPE : ℤ := 27

/-- Keycode of the character 'w' (wireframe toggle). -/
def KEY_w : ℤ := 119

/-- Keycode of the character 'q' (quit). -/
def KEY_q : ℤ := 113

/-- The wireframe toggle in `keydown` case 'w' (window.c lines 199-205):
read back the current polygon mode; `GL_FILL` becomes `GL_LINE`, anything
else becomes `GL_FILL`. -/
def togglePolygonMode (m : PolyMode) : PolyMode :=
  if m = PolyMode.fill then PolyMode.line else PolyMode.fill

/-- Embedding of `keydown` (window.c lines 184-212). The second component
is true when the handler requests process exit (`exit(0)`). -/
def keydown (keycode : ℤ) (s : GState) : GState × Bool :=
  if keycode = SDLK_LEFT then ({ s with keys := { s.keys with left := true } }, false)
  else if keycode = SDLK_RIGHT then ({ s with keys := { s.keys with right := true } }, false)
  else if keycode = SDLK_UP then ({ s with keys := { s.keys with up := true } }, false)
  else if keycode = SDLK_DOWN then ({ s with keys := { s.keys with down := true } }, false)
  else if keycode = KEY_w then ({ s with polyMode := togglePolygonMode s.polyMode }, false)
  else if keycode = SDLK_ESCAPE ∨ keycode = KEY_q then (s, true)
  else (s, false)

/-- Embedding of `keyup` (window.c lines 215-230). -/
def keyup (keycode : ℤ) (s : GState) : GState :=
  if keycode = SDLK_LEFT then { s with keys := { s.keys with left := false } }
  else if keycode = SDLK_RIGHT then { s with keys := { s.keys with right := false } }
  else if keycode = SDLK_UP then { s with keys := { s.keys with up := false } }
  else if keycode = SDLK_DOWN then { s with keys := { s.keys with down := false } }
  else s

/-- The keycodes recognized by `keydown` or `keyup`. -/
def recognizedKeys : List ℤ :=
  [SDLK_LEFT, SDLK_RIGHT, SDLK_UP, SDLK_DOWN, KEY_w, SDLK_ESCAPE, KEY_q]

/-- The resources released by `quit`: whether `_heightMap` is non-null,
the value of the texture handle `_terrain_tId`, plus counters of how many
`free` and `glDeleteTextures` calls have been issued on them, to make
double releases observable. -/
structure ResState where
  heightMapAllocated : Bool
  terrain_tId : ℕ
  heightMapFrees : ℕ
  textureDeletes : ℕ
deriving DecidableEq

/-- Embedding of `quit` (window.c lines 269-280): free `_heightMap` only
if non-null and clear it; delete `_terrain_tId` only if non-zero and clear
it. (The unconditional `freeNoiseTextures` and `gl4duClean` calls are
delegated to external modules.) -/
def quit (s : ResState) : ResState :=
  let s1 := if s.heightMapAllocated then
      { s with heightMapFrees := s.heightMapFrees + 1, heightMapAllocated := false }
    else s
  if s1.terrain_tId ≠ 0 then
    { s1 with textureDeletes := s1.textureDeletes + 1, terrain_tId := 0 }
  else s1

/-- The two meshes drawn per frame: `_landscape` and `_plan`. -/
inductive MeshId where
  | landscape
  | plan
deriving DecidableEq

/-- Texture objects bound via `glBindTexture`: the altitude color ramp
`_terrain_tId`. -/
inductive TexName where
  | terrainRamp
deriving DecidableEq

/-- Shader uniform names set by `draw`. -/
inductive UName where
  | lumpos
  | degrade
  | eau
  | cycle
deriving DecidableEq

/-- Named matrices of the host matrix stack. -/
inductive MatName where
  | modelViewMatrix
  | projectionMatrix
deriving DecidableEq

/-- One GPU-facing command issued by `draw`. -/
inductive RCmd where
  | clear
  | bindMatrix (m : MatName)
  | loadIdentity
  | lookAt
  | useProgram
  | scalef (sx sy sz : ℚ)
  | sendMatrices
  | uniform4fv (u : UName)
  | uniform1i (u : UName) (v : ℤ)
  | uniform1f (u : UName)
  | bindTexture1D (t : TexName)
  | useNoise (shift : ℤ)
  | rotatef (angle ax ay az : ℚ)
  | drawMesh (m : MeshId)
  | unuseNoise (shift : ℤ)
deriving DecidableEq

/-- The command sequence issued by one call of `draw` (window.c lines
233-266), in source order. -/
def drawTrace : List RCmd :=
  [RCmd.clear,
   RCmd.bindMatrix MatName.modelViewMatrix,
   RCmd.loadIdentity,
   RCmd.lookAt,
   RCmd.useProgram,
   RCmd.scalef 100 10 100,
   RCmd.sendMatrices,
   RCmd.uniform4fv UName.lumpos,
   RCmd.uniform1i UName.degrade 0,
   RCmd.uniform1i UName.eau 0,
   RCmd.uniform1f UName.cycle,
   RCmd.bindTexture1D TexName.terrainRamp,
   RCmd.useNoise 1,
   RCmd.drawMesh MeshId.landscape,
   RCmd.rotatef (-90) 1 0 0,
   RCmd.sendMatrices,
   RCmd.uniform1i UName.eau 1,
   RCmd.drawMesh MeshId.plan,
   RCmd.unuseNoise 1]

/-- Whether a command is a draw submission. -/
def isDrawCmd : RCmd → Bool
  | RCmd.drawMesh _ => true
  | _ => false

/-- Whether a command sets the surface-selector uniform `eau`. -/
def isEauSet : RCmd → Bool
  | RCmd.uniform1i UName.eau _ => true
  | _ => false

/-- Only the forward key held. -/
def kUp : Keys := ⟨false, false, true, false⟩

/-- Only the backward key held. -/
def kDown : Keys := ⟨false, false, false, true⟩

/-- No key held. -/
def kNone : Keys := ⟨false, false, false, false⟩

/-- A concrete program state used by witnesses. -/
def sW : GState := ⟨kNone, PolyMode.fill, ⟨1, 2, 3⟩, 0⟩

lemma camTick_theta (sinf cosf : ℚ → ℚ) (k : Keys) (dt : ℚ) (c : Cam) :
    (camTick sinf cosf k dt c).theta
      = c.theta + (if k.left then dt * M_PI else 0)
          - (if k.right then dt * M_PI else 0) := by
  rcases k with ⟨l, r, u, d⟩
  cases l <;> cases r <;> cases u <;> cases d <;> simp [camTick]

lemma applyTicks_theta_bothRot (sinf cosf : ℚ → ℚ) :
    ∀ (dts : List ℚ) (s : GState), s.keys.left = true → s.keys.right = true →
      (applyTicks sinf cosf dts s).cam.theta = s.cam.theta := by
  intro dts
  induction dts with
  | nil => intro s _ _; rfl
  | cons dt rest ih =>
      intro s hl hr
      have hcons : applyTicks sinf cosf (dt :: rest) s
          = applyTicks sinf cosf rest (idle sinf cosf dt s) := rfl
      have hkl : (idle sinf cosf dt s).keys.left = true := hl
      have hkr : (idle sinf cosf dt s).keys.right = true := hr
      rw [hcons, ih (idle sinf cosf dt s) hkl hkr]
      have hth := camTick_theta sinf cosf s.keys dt s.cam
      rw [show (idle sinf cosf dt s).cam = camTick sinf cosf s.keys dt s.cam from rfl,
        hth, hl, hr]
      simp

/-- Claim C3: per `idle` tick, `theta` gains `dt * π` when the rotate-left
flag is set and loses `dt * π` when the rotate-right flag is set (π being
the program's `M_PI` constant), independent of camera position, and with
both rotation flags set the yaw is left unchanged over any sequence of
ticks. -/
theorem idle_rotation (sinf cosf : ℚ → ℚ) :
    (∀ (dt : ℚ) (s : GState),
       (idle sinf cosf dt s).cam.theta
         = s.cam.theta + (if s.keys.left then dt * M_PI else 0)
             - (if s.keys.right then dt * M_PI else 0)) ∧
    (∀ (dts : List ℚ) (u d : Bool) (pm : PolyMode) (c : Cam) (cyc : ℚ),
       (applyTicks sinf cosf dts ⟨⟨true, true, u, d⟩, pm, c, cyc⟩).cam.theta = c.theta) := by
  constructor
  · intro dt s
    exact camTick_theta sinf cosf s.keys dt s.cam
  · intro dts u d pm c cyc
    exact applyTicks_theta_bothRot sinf cosf dts ⟨⟨true, true, u, d⟩, pm, c, cyc⟩ rfl rfl

/-- Claim C4: with only the forward flag, one tick moves the position by
`(-dt*5*sin θ, -dt*5*cos θ)`; the backward flag applies the negated delta;
with both flags held in one tick the net position change is zero for any
rotation-flag combination; and from pose (0,0) with yaw 0, one forward tick
with dt = 1 lands at (0,-5). -/
theorem idle_translation (sinf cosf : ℚ → ℚ) (h0 : sinf 0 = 0) (h1 : cosf 0 = 1) :
    (∀ (dt : ℚ) (pm : PolyMode) (c : Cam) (cyc : ℚ),
       (idle sinf cosf dt ⟨kUp, pm, c, cyc⟩).cam.x = c.x - dt * 5 * sinf c.theta ∧
       (idle sinf cosf dt ⟨kUp, pm, c, cyc⟩).cam.z = c.z - dt * 5 * cosf c.theta) ∧
    (∀ (dt : ℚ) (pm : PolyMode) (c : Cam) (cyc : ℚ),
       (idle sinf cosf dt ⟨kDown, pm, c, cyc⟩).cam.x = c.x + dt * 5 * sinf c.theta ∧
       (idle sinf cosf dt ⟨kDown, pm, c, cyc⟩).cam.z = c.z + dt * 5 * cosf c.theta) ∧
    (∀ (dt : ℚ) (l r : Bool) (pm : PolyMode) (c : Cam) (cyc : ℚ),
       (idle sinf cosf dt ⟨⟨l, r, true, true⟩, pm, c, cyc⟩).cam.x = c.x ∧
       (idle sinf cosf dt ⟨⟨l, r, true, true⟩, pm, c, cyc⟩).cam.z = c.z) ∧
    ((idle sinf cosf 1 ⟨kUp, PolyMode.fill, ⟨0, 0, 0⟩, 0⟩).cam.x = 0 ∧
     (idle sinf cosf 1 ⟨kUp, PolyMode.fill, ⟨0, 0, 0⟩, 0⟩).cam.z = -5) := by
  refine ⟨?_, ?_, ?_, ?_⟩
  · intro dt pm c cyc
    constructor <;> simp [idle, camTick, kUp, pas] <;> ring
  · intro dt pm c cyc
    constructor <;> simp [idle, camTick, kDown, pas]
  · intro dt l r pm c cyc
    cases l <;> cases r <;> constructor <;> simp [idle, camTick, pas]
  · constructor <;> simp [idle, camTick, kUp, pas, h0, h1]

/-- Claim C4 witness: the theorem instantiated with sin = const 0 and
cos = const 1 (which satisfy sin 0 = 0 and cos 0 = 1): one forward tick
from the origin lands at (0,-5). -/
theorem idle_translation_witness :
    (fun _ : ℚ => (0 : ℚ)) 0 = 0 ∧ (fun _ : ℚ => (1 : ℚ)) 0 = 1 ∧
    (idle (fun _ => 0) (fun _ => 1) 1 ⟨kUp, PolyMode.fill, ⟨0, 0, 0⟩, 0⟩).cam.x = 0 ∧
    (idle (fun _ => 0) (fun _ => 1) 1 ⟨kUp, PolyMode.fill, ⟨0, 0, 0⟩, 0⟩).cam.z = -5 :=
  ⟨rfl, rfl,
   (idle_translation (fun _ => 0) (fun _ => 1) rfl rfl).2.2.2.1,
   (idle_translation (fun _ => 0) (fun _ => 1) rfl rfl).2.2.2.2⟩

lemma applyTicks_kUp (sinf cosf : ℚ → ℚ) :
    ∀ (dts : List ℚ) (s : GState), s.keys = kUp →
      (applyTicks sinf cosf dts s).cam.theta = s.cam.theta ∧
      (applyTicks sinf cosf dts s).cam.x = s.cam.x - 5 * sinf s.cam.theta * dts.sum ∧
      (applyTicks sinf cosf dts s).cam.z = s.cam.z - 5 * cosf s.cam.theta * dts.sum := by
  intro dts
  induction dts with
  | nil => intro s _; refine ⟨rfl, ?_, ?_⟩ <;> simp [applyTicks]
  | cons dt rest ih =>
      intro s hk
      have hcons : applyTicks sinf cosf (dt :: rest) s
          = applyTicks sinf cosf rest (idle sinf cosf dt s) := rfl
      have hkeys : (idle sinf cosf dt s).keys = kUp := hk
      obtain ⟨ht, hx, hz⟩ := ih (idle sinf cosf dt s) hkeys
      have hcam : (idle sinf cosf dt s).cam
          = { s.cam with x := s.cam.x + -dt * pas * sinf s.cam.theta,
                         z := s.cam.z + -dt * pas * cosf s.cam.theta } := by
        rw [show (idle sinf cosf dt s).cam = camTick sinf cosf s.keys dt s.cam from rfl, hk]
        rfl
      rw [hcons]
      refine ⟨?_, ?_, ?_⟩
      · rw [ht, hcam]
      · rw [hx, hcam]; simp [pas]; ring
      · rw [hz, hcam]; simp [pas]; ring

lemma applyTicks_kDown (sinf cosf : ℚ → ℚ) :
    ∀ (dts : List ℚ) (s : GState), s.keys = kDown →
      (applyTicks sinf cosf dts s).cam.theta = s.cam.theta ∧
      (applyTicks sinf cosf dts s).cam.x = s.cam.x + 5 * sinf s.cam.theta * dts.sum ∧
      (applyTicks sinf cosf dts s).cam.z = s.cam.z + 5 * cosf s.cam.theta * dts.sum := by
  intro dts
  induction dts with
  | nil => intro s _; refine ⟨rfl, ?_, ?_⟩ <;> simp [applyTicks]
  | cons dt rest ih =>
      intro s hk
      have hcons : applyTicks sinf cosf (dt :: rest) s
          = applyTicks sinf cosf rest (idle sinf cosf dt s) := rfl
      have hkeys : (idle sinf cosf dt s).keys = kDown := hk
      obtain ⟨ht, hx, hz⟩ := ih (idle sinf cosf dt s) hkeys
      have hcam : (idle sinf cosf dt s).cam
          = { s.cam with x := s.cam.x + dt * pas * sinf s.cam.theta,
                         z := s.cam.z + dt * pas * cosf s.cam.theta } := by
        rw [show (idle sinf cosf dt s).cam = camTick sinf cosf s.keys dt s.cam from rfl, hk]
        rfl
      rw [hcons]
      refine ⟨?_, ?_, ?_⟩
      · rw [ht, hcam]
      · rw [hx, hcam]; simp [pas]; ring
      · rw [hz, hcam]; simp [pas]; ring

/-- Claim C5: from any pose, holding only forward over ticks totalling T
seconds and then only backward over ticks totalling the same T returns the
horizontal position (x, z) to its start exactly (the yaw is unchanged
throughout, so the deltas cancel). -/
theorem camera_roundtrip (sinf cosf : ℚ → ℚ) (s : GState) (dts1 dts2 : List ℚ)
    (hsum : dts1.sum = dts2.sum) :
    (applyTicks sinf cosf dts2
        { applyTicks sinf cosf dts1 { s with keys := kUp } with keys := kDown }).cam.x
      = s.cam.x ∧
    (applyTicks sinf cosf dts2
        { applyTicks sinf cosf dts1 { s with keys := kUp } with keys := kDown }).cam.z
      = s.cam.z ∧
    (applyTicks sinf cosf dts2
        { applyTicks sinf cosf dts1 { s with keys := kUp } with keys := kDown }).cam.theta
      = s.cam.theta := by
  obtain ⟨ht1, hx1, hz1⟩ := applyTicks_kUp sinf cosf dts1 { s with keys := kUp } rfl
  obtain ⟨ht2, hx2, hz2⟩ :=
    applyTicks_kDown sinf cosf dts2
      { applyTicks sinf cosf dts1 { s with keys := kUp } with keys := kDown } rfl
  have ecam : ({ applyTicks sinf cosf dts1 { s with keys := kUp } with keys := kDown } : GState).cam
      = (applyTicks sinf cosf dts1 { s with keys := kUp }).cam := rfl
  have ecam0 : ({ s with keys := kUp } : GState).cam = s.cam := rfl
  rw [ecam, ecam0] at ht1 hx1 hz1 ht2 hx2 hz2
  refine ⟨?_, ?_, ?_⟩
  · rw [hx2, hx1, ht1, hsum]; ring
  · rw [hz2, hz1, ht1, hsum]; ring
  · rw [ht2, ht1]

/-- Claim C5 witness: with sin = cos = identity, starting pose (1, 2, 3),
forward for one tick of 2 seconds and backward for two ticks of 1 second
each returns the camera to x = 1, z = 2, theta = 3. -/
theorem camera_roundtrip_witness :
    ([(2 : ℚ)] : List ℚ).sum = ([1, 1] : List ℚ).sum ∧
    ((applyTicks (fun q => q) (fun q => q) [1, 1]
        { applyTicks (fun q => q) (fun q => q) [(2 : ℚ)] { sW with keys := kUp }
          with keys := kDown }).cam.x = sW.cam.x ∧
     (applyTicks (fun q => q) (fun q => q) [1, 1]
        { applyTicks (fun q => q) (fun q => q) [(2 : ℚ)] { sW with keys := kUp }
          with keys := kDown }).cam.z = sW.cam.z ∧
     (applyTicks (fun q => q) (fun q => q) [1, 1]
        { applyTicks (fun q => q) (fun q => q) [(2 : ℚ)] { sW with keys := kUp }
          with keys := kDown }).cam.theta = sW.cam.theta) :=
  ⟨by norm_num, camera_roundtrip (fun q => q) (fun q => q) sW [(2 : ℚ)] [1, 1] (by norm_num)⟩

/-- Claim C10: a tick with no key flag set leaves the camera pose exactly
unchanged while still advancing the cycle phase accumulator by `dt`. -/
theorem idle_no_keys (sinf cosf : ℚ → ℚ) (dt : ℚ) (pm : PolyMode) (c : Cam) (cyc : ℚ) :
    idle sinf cosf dt ⟨kNone, pm, c, cyc⟩ = ⟨kNone, pm, c, cyc + dt⟩ := rfl

/-- Claim C6: `draw` issues exactly two draw submissions, terrain then
water; before the terrain draw the surface selector `eau` is set to 0 and
the color ramp and noise textures are bound; between the draws a -90 degree
rotation about the X axis is applied and `eau` is set to 1; the noise
binding is released only after the water draw; and the only writes to
`eau` are the 0 before the terrain pass and the 1 before the water pass. -/
theorem draw_pass_order :
    drawTrace.filter isDrawCmd
      = [RCmd.drawMesh MeshId.landscape, RCmd.drawMesh MeshId.plan] ∧
    drawTrace.filter isEauSet
      = [RCmd.uniform1i UName.eau 0, RCmd.uniform1i UName.eau 1] ∧
    drawTrace.indexOf (RCmd.uniform1i UName.eau 0)
      < drawTrace.indexOf (RCmd.drawMesh MeshId.landscape) ∧
    drawTrace.indexOf (RCmd.bindTexture1D TexName.terrainRamp)
      < drawTrace.indexOf (RCmd.drawMesh MeshId.landscape) ∧
    drawTrace.indexOf (RCmd.useNoise 1)
      < drawTrace.indexOf (RCmd.drawMesh MeshId.landscape) ∧
    drawTrace.indexOf (RCmd.drawMesh MeshId.landscape)
      < drawTrace.indexOf (RCmd.rotatef (-90) 1 0 0) ∧
    drawTrace.indexOf (RCmd.rotatef (-90) 1 0 0)
      < drawTrace.indexOf (RCmd.uniform1i UName.eau 1) ∧
    drawTrace.indexOf (RCmd.uniform1i UName.eau 1)
      < drawTrace.indexOf (RCmd.drawMesh MeshId.plan) ∧
    drawTrace.indexOf (RCmd.drawMesh MeshId.plan)
      < drawTrace.indexOf (RCmd.unuseNoise 1) := by
  decide

/-- Claim C7: `quit` clears both guarded handles, a second invocation
changes nothing (so its free and delete branches are unreachable), and one
invocation performs at most one free of the height map and at most one
delete of the ramp texture. -/
theorem quit_idempotent (s : ResState) :
    (quit s).heightMapAllocated = false ∧
    (quit s).terrain_tId = 0 ∧
    quit (quit s) = quit s ∧
    (quit s).heightMapFrees ≤ s.heightMapFrees + 1 ∧
    (quit s).textureDeletes ≤ s.textureDeletes + 1 := by
  rcases s with ⟨hma, tid, f, d⟩
  cases hma <;> by_cases h : tid = 0 <;> simp [quit, h]

/-- Claim C7 witness: concrete run with both resources allocated. -/
theorem quit_idempotent_witness :
    (quit ⟨true, 7, 0, 0⟩).heightMapAllocated = false ∧
    (quit ⟨true, 7, 0, 0⟩).terrain_tId = 0 ∧
    quit (quit ⟨true, 7, 0, 0⟩) = quit ⟨true, 7, 0, 0⟩ ∧
    (quit ⟨true, 7, 0, 0⟩).heightMapFrees ≤ 0 + 1 ∧
    (quit ⟨true, 7, 0, 0⟩).textureDeletes ≤ 0 + 1 :=
  quit_idempotent ⟨true, 7, 0, 0⟩

/-- Claim C8, counterexample: the polygon-mode domain of `glPolygonMode`
also contains point mode; starting there, two toggles give fill then line,
not point, so the toggle is not involutive on every polygon mode. -/
theorem togglePolygonMode_counterexample :
    ¬ (togglePolygonMode (togglePolygonMode PolyMode.point) = PolyMode.point) := by
  decide

/-- Claim C8, amended: on fill and line - the only modes this program ever
starts in or sets - two consecutive toggles restore the original mode, and
every toggle result is again fill or line, so involutivity holds on all
modes reachable in the program. -/
theorem togglePolygonMode_amended :
    (∀ m : PolyMode, m = PolyMode.fill ∨ m = PolyMode.line →
       togglePolygonMode (togglePolygonMode m) = m) ∧
    (∀ m : PolyMode,
       togglePolygonMode m = PolyMode.fill ∨ togglePolygonMode m = PolyMode.line) := by
  constructor
  · rintro m (rfl | rfl) <;> rfl
  · intro m; cases m <;> simp [togglePolygonMode]

/-- Claim C8 witness: double toggle from line mode lands back on line. -/
theorem togglePolygonMode_amended_witness :
    (PolyMode.line = PolyMode.fill ∨ PolyMode.line = PolyMode.line) ∧
    togglePolygonMode (togglePolygonMode PolyMode.line) = PolyMode.line :=
  ⟨Or.inr rfl, togglePolygonMode_amended.1 PolyMode.line (Or.inr rfl)⟩

/-- Claim C9: a keycode outside the recognized set (four arrows, 'w',
escape, 'q') leaves the whole program state unchanged under both handlers
and requests no exit. -/
theorem unrecognized_keys_no_effect (k : ℤ) (s : GState) (h : k ∉ recognizedKeys) :
    keydown k s = (s, false) ∧ keyup k s = s := by
  simp only [recognizedKeys, List.mem_cons, List.not_mem_nil, or_false] at h
  push_neg at h
  obtain ⟨h1, h2, h3, h4, h5, h6, h7⟩ := h
  constructor <;> simp [keydown, keyup, h1, h2, h3, h4, h5, h6, h7]

/-- Claim C9 witness: keycode 0 is unrecognized and changes nothing. -/
theorem unrecognized_keys_no_effect_witness :
    (0 : ℤ) ∉ recognizedKeys ∧ keydown 0 sW = (sW, false) ∧ keyup 0 sW = sW :=
  ⟨by decide,
   (unrecognized_keys_no_effect 0 sW (by decide)).1,
   (unrecognized_keys_no_effect 0 sW (by decide)).2⟩

end Landscape
